import Mathlib

/-!
Verification of the BrandFrameAI frontend API-client layer.

The development shallowly embeds the typed API client of the repository:
the axios transport (`src/lib/axios.ts`: response interceptor,
`handleApiError`, `extractApiData`), the domain client (`src/lib/api.ts`:
`ApiService` response mapping, `logout`, `applyPreset` form building) and
the utility helpers (`src/lib/api-utils.ts`: `retryApiCall`,
`validateImageFile`).  Backend response bodies are modelled as JSON-like
values (`JVal`, with an explicit `undefined` constructor for JavaScript's `undefined`);
effectful pieces (credential storage, navigation) are modelled as explicit
state passing over `ClientState`.
-/

namespace BrandFrame

/-- JSON-like runtime values as handled by the TypeScript client.  `undefined`
models JavaScript `undefined` (the result of a missing property access),
distinct from JSON `null`. -/
inductive JVal where
  | undefined : JVal
  | null : JVal
  | bool : Bool → JVal
  | num : Int → JVal
  | str : String → JVal
  | arr : List JVal → JVal
  | obj : List (String × JVal) → JVal
deriving Repr

/-- JavaScript property access `v[k]` for a string key: the first binding of
the key in an object, `undefined` otherwise. -/
def jsGet (v : JVal) (k : String) : JVal :=
  match v with
  | .obj fs => (((fs.find? (fun p => p.1 == k)).map (fun p => p.2)).getD .undefined)
  | _ => .undefined

/-- JavaScript `k in v` for a plain object (key presence). -/
def hasKeyB (fs : List (String × JVal)) (k : String) : Bool :=
  fs.any (fun p => p.1 == k)

/-- JavaScript truthiness of a value. -/
def jsTruthy : JVal → Bool
  | .undefined => false
  | .null => false
  | .bool b => b
  | .num n => n != 0
  | .str s => s != ""
  | .arr _ => true
  | .obj _ => true

/-- JavaScript short-circuit `a || b`: the first operand when truthy,
otherwise the second. -/
def jsOr (a b : JVal) : JVal :=
  if jsTruthy a then a else b

/-- JavaScript `Object.values(v)`: an object's values in binding order, an
array's elements, a string's characters, and `[]` for other primitives. -/
def jsValues : JVal → List JVal
  | .obj fs => fs.map (fun p => p.2)
  | .arr xs => xs
  | .str s => s.data.map (fun c => JVal.str (String.singleton c))
  | _ => []

/-- JavaScript `v?.[0]`: optional indexing at 0, `undefined` through
`undefined`/`null`, first element of an array, first character of a
string, the `"0"` property of an object. -/
def jsIndex0 : JVal → JVal
  | .undefined => .undefined
  | .null => .undefined
  | .arr xs => (xs.head?).getD .undefined
  | .str s =>
    match s.data with
    | [] => .undefined
    | c :: _ => .str (String.singleton c)
  | .obj fs => (((fs.find? (fun p => p.1 == "0")).map (fun p => p.2)).getD .undefined)
  | _ => .undefined

/-- Fields contributed by a JavaScript object spread `\x7b...v\x7d`: an
object's own entries, index/character entries for arrays and strings, and
nothing for the remaining primitives. -/
def spreadFields : JVal → List (String × JVal)
  | .obj fs => fs
  | .arr xs => xs.enum.map (fun p => (toString p.1, p.2))
  | .str s => s.data.enum.map (fun p => (toString p.1, JVal.str (String.singleton p.2)))
  | _ => []

/-- Setting a key in an object-literal field list: a later entry of an
object literal overrides an earlier binding of the same key in place, and
a fresh key is appended at the end (JavaScript object-literal semantics). -/
def setField (fs : List (String × JVal)) (k : String) (v : JVal) : List (String × JVal) :=
  match fs with
  | [] => [(k, v)]
  | (k1, v1) :: rest => if k1 == k then (k1, v) :: rest else (k1, v1) :: setField rest k v

/-- JavaScript `typeof v === \x27object\x27` (true for objects, arrays and
`null`). -/
def jsTypeofObject : JVal → Bool
  | .obj _ => true
  | .arr _ => true
  | .null => true
  | _ => false

/-- Hexadecimal digit used by JSON string escaping. -/
def hexDigit (n : Nat) : String :=
  (("0123456789abcdef".data.get? n).map String.singleton).getD "0"

/-- JSON escaping of a single character, as produced by `JSON.stringify`. -/
def jsonEscChar (c : Char) : String :=
  if c = '"' then "\\\""
  else if c = '\\' then "\\\\"
  else if c = '\n' then "\\n"
  else if c = '\r' then "\\r"
  else if c = '\t' then "\\t"
  else if c = '\x08' then "\\b"
  else if c = '\x0c' then "\\f"
  else if c.toNat < 32 then "\\u00" ++ hexDigit (c.toNat / 16) ++ hexDigit (c.toNat % 16)
  else String.singleton c

/-- JSON quoting of a string, as produced by `JSON.stringify`. -/
def jsonQuote (s : String) : String :=
  "\"" ++ String.join (s.data.map jsonEscChar) ++ "\""

mutual

/-- `JSON.stringify` on the embedded values.  Object members whose value is
`undefined` are omitted, exactly as `JSON.stringify` does; `undefined`
inside an array serializes as `null`.  (A top-level `undefined` never
occurs in the client: the serializer is only invoked on values whose
JavaScript `typeof` is `object`.) -/
def jsonStringify : JVal → String
  | .undefined => "null"
  | .null => "null"
  | .bool true => "true"
  | .bool false => "false"
  | .num n => toString n
  | .str s => jsonQuote s
  | .arr xs => "[" ++ String.intercalate "," (jsonStringifyElems xs) ++ "]"
  | .obj fs => "\x7b" ++ String.intercalate "," (jsonStringifyMembers fs) ++ "\x7d"

/-- Serialized elements of an array. -/
def jsonStringifyElems : List JVal → List String
  | [] => []
  | x :: rest => jsonStringify x :: jsonStringifyElems rest

/-- Serialized members of an object, skipping `undefined`-valued members. -/
def jsonStringifyMembers : List (String × JVal) → List String
  | [] => []
  | (k, v) :: rest =>
    match v with
    | .undefined => jsonStringifyMembers rest
    | v1 => (jsonQuote k ++ ":" ++ jsonStringify v1) :: jsonStringifyMembers rest

end

/-! Transport helpers, from src/lib/axios.ts. -/

/-- `extractApiData` (src/lib/axios.ts): unwrap Laravel-style envelopes.
Returns `response.data` when the response is a non-null object carrying a
`data` property, and the response itself otherwise (bare arrays never
carry a `data` property, so they pass through unchanged). -/
def extractApiData (response : JVal) : JVal :=
  match response with
  | .obj fs => if hasKeyB fs "data" then jsGet (.obj fs) "data" else .obj fs
  | r => r

/-- Client-side state touched by the transport layer: the stored
credential (`localStorage` entry `auth_token`), the current
`window.location.pathname`, and the log of navigations performed by
assignments to `window.location.href` (one list entry per assignment,
so "redirect triggered exactly once" is one appended entry). -/
structure ClientState where
  authToken : Option String
  pathname : String
  redirects : List String

/-- An axios error as seen by the response interceptor and
`handleApiError`: the optional response (status and body; `none` models a
network failure with no response), whether a request object exists, and
the error's `message` property. -/
structure AxiosErr where
  response : Option (Nat × JVal)
  hasRequest : Bool
  message : JVal

/-- Response-error interceptor of the axios instance
(src/lib/axios.ts lines 33-59).  A 401 clears the stored `auth_token` and,
unless the current path is already `/auth`, assigns
`window.location.href = "/auth"` once; a 422 whose body has a truthy
`errors` property rewrites the error's message to
`Object.values(data.errors)[0]?.[0] || data.message || "Validation failed"`.
The interceptor is installed on the shared axios instance, so it runs for
every request regardless of which operation issued it. -/
def respInterceptorError (st : ClientState) (e : AxiosErr) : ClientState × AxiosErr :=
  let status : Option Nat := e.response.map (fun p => p.1)
  let st1 :=
    if status = some 401 then
      let cleared := { st with authToken := none }
      if st.pathname ≠ "/auth" then
        { cleared with redirects := cleared.redirects ++ ["/auth"] }
      else cleared
    else st
  let e1 :=
    if status = some 422 then
      let data := (e.response.map (fun p => p.2)).getD JVal.undefined
      if jsTruthy (jsGet data "errors") then
        let firstError := ((jsValues (jsGet data "errors")).head?).getD JVal.undefined
        { e with
          message := jsOr (jsIndex0 firstError)
            (jsOr (jsGet data "message") (.str "Validation failed")) }
      else e
    else e
  (st1, e1)

/-- `handleApiError` (src/lib/axios.ts lines 64-85), specialized to axios
errors (every error reaching the domain-client catch blocks is an axios
error, hence also an `Error` instance, so the trailing
`error instanceof Error` branch returns the error's message). -/
def handleApiError (e : AxiosErr) : JVal :=
  let respData := (e.response.map (fun p => p.2)).getD JVal.undefined
  if jsTruthy respData then
    jsOr (jsGet respData "message")
      (jsOr (jsGet respData "error") (jsOr e.message (.str "An error occurred")))
  else if e.hasRequest then .str "Network error. Please check your connection."
  else e.message

/-- Message surfaced to the caller of a domain-client method for a failed
request: the error first passes through the response interceptor, then the
catch block throws `new Error(handleApiError(error))`. -/
def surfacedMessage (st : ClientState) (e : AxiosErr) : JVal :=
  handleApiError (respInterceptorError st e).2

/-! Domain client response mapping, from src/lib/api.ts. -/

/-- `ApiService.mapGeneratedImage`: spread of the backend record with the
convenience aliases `url := data.generated_image_url` and
`prompt := data.user_intent` written last. -/
def mapGeneratedImage (data : JVal) : JVal :=
  .obj (setField (setField (spreadFields data) "url" (jsGet data "generated_image_url"))
    "prompt" (jsGet data "user_intent"))

/-- `ApiService.mapPreset`: spread of the backend record with
`prompt := typeof structured_prompt === \x27object\x27 ?
JSON.stringify(structured_prompt) : structured_prompt` written last. -/
def mapPreset (data : JVal) : JVal :=
  let sp := jsGet data "structured_prompt"
  .obj (setField (spreadFields data) "prompt"
    (if jsTypeofObject sp then .str (jsonStringify sp) else sp))

/-- Response processing of `ApiService.getImages`:
`extractApiData`, then `Array.isArray(data) ? data.map(mapGeneratedImage) : []`. -/
def getImagesResult (body : JVal) : List JVal :=
  match extractApiData body with
  | .arr xs => xs.map mapGeneratedImage
  | _ => []

/-- Response processing of `ApiService.getPresets`:
`extractApiData`, then `Array.isArray(data) ? data.map(mapPreset) : []`. -/
def getPresetsResult (body : JVal) : List JVal :=
  match extractApiData body with
  | .arr xs => xs.map mapPreset
  | _ => []

/-- Response processing of `ApiService.getImage`:
`mapGeneratedImage(extractApiData(response.data))`. -/
def getImageResult (body : JVal) : JVal :=
  mapGeneratedImage (extractApiData body)

/-- Response processing of `ApiService.getPreset`:
`mapPreset(extractApiData(response.data))`. -/
def getPresetResult (body : JVal) : JVal :=
  mapPreset (extractApiData body)

/-- Response processing of `ApiService.createPreset`:
`mapPreset(extractApiData(response.data))`. -/
def createPresetResult (body : JVal) : JVal :=
  mapPreset (extractApiData body)

/-- Response processing of `ApiService.generateImage`:
`responseData.data || responseData`, then `mapGeneratedImage`. -/
def generateImageResult (body : JVal) : JVal :=
  mapGeneratedImage (jsOr (jsGet body "data") body)

/-- Response processing of `ApiService.applyPreset` (same unwrap as
`generateImage`): `responseData.data || responseData`, then
`mapGeneratedImage`. -/
def applyPresetResult (body : JVal) : JVal :=
  mapGeneratedImage (jsOr (jsGet body "data") body)

/-- `ApiService.logout` (src/lib/api.ts lines 262-271) as a state
transformer.  The `backend` argument is the settled result of
`axiosInstance.post("/logout")`: on fulfilment the token is cleared and
the method returns; on rejection the catch block clears the token and
throws `new Error(handleApiError(error))`. -/
def logoutRun (st : ClientState) (backend : Except AxiosErr JVal) :
    ClientState × Except JVal Unit :=
  match backend with
  | .ok _ => ({ st with authToken := none }, .ok ())
  | .error e => ({ st with authToken := none }, .error (handleApiError e))

/-! File uploads and form building. -/

/-- A browser `File` as far as the client inspects it. -/
structure FileRec where
  name : String
  type : String
  size : Nat
deriving DecidableEq

/-- An entry value of a `FormData` body. -/
inductive FormValue where
  | str : String → FormValue
  | file : FileRec → FormValue
deriving DecidableEq

/-- First entry of a form body under a key. -/
def formLookup (form : List (String × FormValue)) (k : String) : Option FormValue :=
  (form.find? (fun p => p.1 == k)).map (fun p => p.2)

/-- URL of the `ApiService.applyPreset` request:
`/presets/$\x7bparams.preset_id\x7d/apply`. -/
def applyPresetUrl (presetId : Nat) : String :=
  "/presets/" ++ toString presetId ++ "/apply"

/-- `FormData` body built by `ApiService.applyPreset`
(src/lib/api.ts lines 407-430): `preset_id` (stringified) and
`product_image` are always appended; `product_description` is appended
only when the supplied description is truthy, i.e. present and non-empty. -/
def applyPresetForm (presetId : Nat) (productImage : FileRec)
    (productDescription : Option String) : List (String × FormValue) :=
  let base := [("preset_id", FormValue.str (toString presetId)),
               ("product_image", FormValue.file productImage)]
  match productDescription with
  | some d => if d ≠ "" then base ++ [("product_description", FormValue.str d)] else base
  | none => base

/-! Utility helpers, from src/lib/api-utils.ts. -/

/-- Result shape of `validateImageFile`. -/
structure ValidationResult where
  valid : Bool
  error : Option String
deriving DecidableEq

/-- `validateImageFile` (src/lib/api-utils.ts lines 44-63): the type check
runs first (JPEG/JPG/PNG), then the 5MB size check. -/
def validateImageFile (file : FileRec) : ValidationResult :=
  let maxSize := 5 * 1024 * 1024
  let allowedTypes := ["image/jpeg", "image/jpg", "image/png"]
  if !(allowedTypes.contains file.type) then
    ⟨false, some "Invalid file type. Please upload a JPEG or PNG image."⟩
  else if file.size > maxSize then
    ⟨false, some "File size exceeds 5MB limit. Please upload a smaller image."⟩
  else ⟨true, none⟩

/-- Whether the character list `hay` begins with `needle`. -/
def charsStarts : List Char → List Char → Bool
  | _, [] => true
  | [], _ :: _ => false
  | c :: cs, d :: ds => (c = d) && charsStarts cs ds

/-- Whether `needle` occurs contiguously inside `hay`. -/
def charsHasInside : List Char → List Char → Bool
  | [], needle => needle.isEmpty
  | c :: cs, needle => charsStarts (c :: cs) needle || charsHasInside cs needle

/-- JavaScript `s.includes(sub)`: substring containment. -/
def strIncludes (s sub : String) : Bool :=
  charsHasInside s.data sub.data

/-- Scan for a digit 4 followed by two further digits. -/
def spec4xxScan : List Char → Bool
  | '4' :: d1 :: d2 :: rest => (d1.isDigit && d2.isDigit) || spec4xxScan (d1 :: d2 :: rest)
  | _ :: rest => spec4xxScan rest
  | [] => false

/-- Modelled from the spec: a message "indicates a client-side (4xx-class)
failure" when it mentions a three-digit HTTP status code in the 400 range,
i.e. contains a digit 4 followed by two digits.  This is the spec's
notion of a client-error marker, used to compare the specified
non-retryable class against the code's actual check
(`error.message.includes("4")`). -/
def specIndicates4xx (msg : String) : Bool :=
  spec4xxScan msg.data

/-- Observable outcome of a `retryApiCall` run: the value returned or the
error thrown, the number of invocations of the wrapped function, and the
sequence of back-off waiting times (in ms) in order. -/
structure RetryOutcome (α : Type) where
  result : Except String α
  calls : Nat
  waits : List Nat

/-- Loop of `retryApiCall` (src/lib/api-utils.ts lines 13-39).  The wrapped
function is modelled as a map from the 0-based attempt index to that
invocation's outcome.  Arguments: remaining iterations, current attempt
index, `lastError` so far, invocation count so far, waits so far.  A
thrown message containing the character 4 is rethrown with no retry; after
the final attempt the loop exits and throws
`lastError || new Error("API call failed after retries")`. -/
def retryAux {α : Type} (fn : Nat → Except String α) (delay : Nat) :
    Nat → Nat → Option String → Nat → List Nat → RetryOutcome α
  | 0, _, lastError, calls, waits =>
    ⟨.error (lastError.getD "API call failed after retries"), calls, waits⟩
  | remaining + 1, attempt, _, calls, waits =>
    match fn attempt with
    | .ok v => ⟨.ok v, calls + 1, waits⟩
    | .error msg =>
      if strIncludes msg "4" then ⟨.error msg, calls + 1, waits⟩
      else if remaining > 0 then
        retryAux fn delay remaining (attempt + 1) (some msg) (calls + 1)
          (waits ++ [delay * 2 ^ attempt])
      else
        retryAux fn delay remaining (attempt + 1) (some msg) (calls + 1) waits

/-- `retryApiCall(fn, maxRetries, delay)`: run the retry loop from attempt
0 with no prior error. -/
def retryApiCall {α : Type} (fn : Nat → Except String α) (maxRetries delay : Nat) :
    RetryOutcome α :=
  retryAux fn delay maxRetries 0 none 0 []

/-- Back-off waiting times produced by a run of `R` failed attempts
starting at attempt index `a`: `delay * 2 ^ a`, then doubling. -/
def backoffWaits (delay : Nat) : Nat → Nat → List Nat
  | _, 0 => []
  | a, r + 1 => delay * 2 ^ a :: backoffWaits delay (a + 1) r

/-! Helper lemmas about object-field manipulation. -/

theorem jsGet_obj_setField_self (fs : List (String × JVal)) (k : String) (v : JVal) :
    jsGet (.obj (setField fs k v)) k = v := by
  induction fs with
  | nil => simp [setField, jsGet]
  | cons hd tl ih =>
    obtain ⟨k1, v1⟩ := hd
    by_cases h : (k1 == k) = true
    · simp [setField, h, jsGet]
    · simp only [setField, h, if_false, Bool.false_eq_true]
      simpa [jsGet, List.find?, h] using ih

theorem jsGet_obj_setField_ne (fs : List (String × JVal)) (k k2 : String) (v : JVal)
    (h : k2 ≠ k) : jsGet (.obj (setField fs k v)) k2 = jsGet (.obj fs) k2 := by
  induction fs with
  | nil =>
    simp [setField, jsGet, List.find?, show (k == k2) = false by
      simpa [beq_iff_eq] using fun hkk => h hkk.symm]
  | cons hd tl ih =>
    obtain ⟨k1, v1⟩ := hd
    by_cases h1 : (k1 == k) = true
    · have hk1 : (k1 == k2) = false := by
        have : k1 = k := by simpa [beq_iff_eq] using h1
        simpa [beq_iff_eq, this] using fun hkk => h hkk.symm
      simp [setField, h1, jsGet, List.find?, hk1]
    · by_cases h2 : (k1 == k2) = true
      · simp [setField, h1, jsGet, List.find?, h2]
      · simp only [setField, h1, if_false, Bool.false_eq_true]
        simpa [jsGet, List.find?, h2] using ih

theorem extractApiData_no_data (fs : List (String × JVal))
    (h : hasKeyB fs "data" = false) : extractApiData (.obj fs) = .obj fs := by
  simp [extractApiData, h]

/-! Claim theorems. -/

/-- Claim C1: for every backend list `L`, the bare shape and the
`\x7bdata: L\x7d` envelope produce the same normalized list through
`getImages` and through `getPresets`: both shapes are unwrapped by
`extractApiData` to `L` before per-record alias mapping. -/
theorem getImages_getPresets_shape_invariant (L : List JVal) :
    getImagesResult (.arr L) = L.map mapGeneratedImage ∧
    getImagesResult (.obj [("data", .arr L)]) = L.map mapGeneratedImage ∧
    getPresetsResult (.arr L) = L.map mapPreset ∧
    getPresetsResult (.obj [("data", .arr L)]) = L.map mapPreset := by
  refine ⟨rfl, ?_, rfl, ?_⟩ <;>
    simp [getImagesResult, getPresetsResult, extractApiData, hasKeyB, jsGet]

/-- Claim C9: `getImages` never throws on an empty result: whenever the
unwrapped response data is the empty list, or is not a list at all, the
method returns the empty sequence. -/
theorem getImages_empty_safe (body : JVal)
    (h : extractApiData body = .arr [] ∨ ∀ xs, extractApiData body ≠ .arr xs) :
    getImagesResult body = [] := by
  rcases h with h | h
  · simp [getImagesResult, h]
  · unfold getImagesResult
    cases hA : extractApiData body with
    | arr xs => exact absurd hA (h xs)
    | _ => rfl

/-- Witness for C9 at a response whose unwrapped data is `null`. -/
theorem getImages_empty_safe_witness : getImagesResult .null = [] :=
  getImages_empty_safe .null (Or.inr (fun xs hx => by simp [extractApiData] at hx))

/-- Claim C10: `validateImageFile` accepts exactly the files whose MIME
type is `image/jpeg`, `image/jpg` or `image/png` and whose size is at most
5MB; every rejection carries a non-empty error message; and a file failing
both checks is reported with the type error, because the type check runs
first. -/
theorem validateImageFile_spec (fl : FileRec) :
    ((validateImageFile fl).valid = true ↔
      ((fl.type = "image/jpeg" ∨ fl.type = "image/jpg" ∨ fl.type = "image/png") ∧
        fl.size ≤ 5 * 1024 * 1024)) ∧
    ((validateImageFile fl).valid = false →
      ∃ msg, (validateImageFile fl).error = some msg ∧ msg ≠ "") ∧
    ((fl.type ≠ "image/jpeg" ∧ fl.type ≠ "image/jpg" ∧ fl.type ≠ "image/png") →
      5 * 1024 * 1024 < fl.size →
      (validateImageFile fl).error =
        some "Invalid file type. Please upload a JPEG or PNG image.") := by
  have hchar : (["image/jpeg", "image/jpg", "image/png"].contains fl.type = true) ↔
      (fl.type = "image/jpeg" ∨ fl.type = "image/jpg" ∨ fl.type = "image/png") := by
    simp [List.contains]
  cases hc : (["image/jpeg", "image/jpg", "image/png"].contains fl.type) with
  | false =>
    have hty : ¬(fl.type = "image/jpeg" ∨ fl.type = "image/jpg" ∨ fl.type = "image/png") := by
      intro h
      have ht := hchar.mpr h
      rw [hc] at ht
      exact Bool.false_ne_true ht
    have hval : validateImageFile fl =
        ⟨false, some "Invalid file type. Please upload a JPEG or PNG image."⟩ := by
      simp only [validateImageFile]
      rw [hc]
      rfl
    rw [hval]
    refine ⟨?_, ?_, ?_⟩
    · constructor
      · intro h
        simp at h
      · intro h
        exact absurd h.1 hty
    · intro _
      exact ⟨"Invalid file type. Please upload a JPEG or PNG image.", rfl, by decide⟩
    · intro _ _
      rfl
  | true =>
    have hty := hchar.mp hc
    by_cases hs : fl.size > 5 * 1024 * 1024
    · have hval : validateImageFile fl =
          ⟨false, some "File size exceeds 5MB limit. Please upload a smaller image."⟩ := by
        simp only [validateImageFile]
        rw [hc, if_neg (by decide), if_pos hs]
      rw [hval]
      refine ⟨?_, ?_, ?_⟩
      · constructor
        · intro h
          simp at h
        · intro h
          omega
      · intro _
        exact ⟨"File size exceeds 5MB limit. Please upload a smaller image.", rfl, by decide⟩
      · intro h _
        exact absurd hty (by tauto)
    · have hval : validateImageFile fl = ⟨true, none⟩ := by
        simp only [validateImageFile]
        rw [hc, if_neg (by decide), if_neg hs]
      rw [hval]
      refine ⟨?_, ?_, ?_⟩
      · constructor
        · intro _
          exact ⟨hty, by omega⟩
        · intro _
          rfl
      · intro h
        simp at h
      · intro h _
        exact absurd hty (by tauto)

/-- Witness for C10 at a file failing both the type and the size check:
the surfaced error is the type error. -/
theorem validateImageFile_spec_witness :
    (validateImageFile ⟨"a.gif", "image/gif", 6291457⟩).error =
      some "Invalid file type. Please upload a JPEG or PNG image." :=
  (validateImageFile_spec ⟨"a.gif", "image/gif", 6291457⟩).2.2
    (by refine ⟨?_, ?_, ?_⟩ <;> decide) (by decide)

/-- Claim C2: for every request whose response has status 401 — whatever
the body and whichever operation issued it — the interceptor leaves the
stored credential removed, and triggers exactly one redirect to `/auth`
when the current view is not the auth view (`st1`) and none when it
already is (`st2`). -/
theorem interceptor401_spec (st1 st2 : ClientState) (e : AxiosErr) (d : JVal)
    (h : e.response = some (401, d))
    (h1 : st1.pathname ≠ "/auth") (h2 : st2.pathname = "/auth") :
    ((respInterceptorError st1 e).1.authToken = none) ∧
    ((respInterceptorError st1 e).1.redirects = st1.redirects ++ ["/auth"]) ∧
    ((respInterceptorError st2 e).1.authToken = none) ∧
    ((respInterceptorError st2 e).1.redirects = st2.redirects) := by
  refine ⟨?_, ?_, ?_, ?_⟩ <;> simp [respInterceptorError, h, h1, h2]

/-- Witness for C2: a 401 on the gallery view clears the token and
redirects once; a 401 already on the auth view clears the token without
redirecting. -/
theorem interceptor401_spec_witness :
    ((respInterceptorError ⟨some "tok", "/gallery", []⟩
        ⟨some (401, .null), true, .str "Unauthorized"⟩).1.authToken = none) ∧
    ((respInterceptorError ⟨some "tok", "/gallery", []⟩
        ⟨some (401, .null), true, .str "Unauthorized"⟩).1.redirects = [] ++ ["/auth"]) ∧
    ((respInterceptorError ⟨some "tok", "/auth", []⟩
        ⟨some (401, .null), true, .str "Unauthorized"⟩).1.authToken = none) ∧
    ((respInterceptorError ⟨some "tok", "/auth", []⟩
        ⟨some (401, .null), true, .str "Unauthorized"⟩).1.redirects = []) :=
  interceptor401_spec ⟨some "tok", "/gallery", []⟩ ⟨some "tok", "/auth", []⟩
    ⟨some (401, .null), true, .str "Unauthorized"⟩ .null rfl (by decide) rfl

/-- Claim C5: after `logout` completes the stored credential is empty on
both paths: a successful backend call clears the token and returns, and a
failing backend call still clears the token and rethrows the normalized
error to the caller. -/
theorem logout_clears_token (st : ClientState) (r : Except AxiosErr JVal)
    (e : AxiosErr) (v : JVal) :
    ((logoutRun st r).1.authToken = none) ∧
    ((logoutRun st (.error e)).2 = .error (handleApiError e)) ∧
    ((logoutRun st (.ok v)).2 = .ok ()) := by
  refine ⟨?_, rfl, rfl⟩
  cases r <;> rfl

/-- Counterexample to claim C6 as stated: calling `applyPreset` with a
supplied — but empty — description produces a form body with no
`product_description` field, because the source guards the append with a
truthiness check, so "a `product_description` field exactly when a
description was supplied" fails at the supplied description `""`. -/
theorem applyPreset_description_counterexample :
    (some "" ≠ (none : Option String)) ∧
    formLookup (applyPresetForm 7 ⟨"img.png", "image/png", 100⟩ (some ""))
      "product_description" = none :=
  ⟨by simp, rfl⟩

/-- Claim C6 (amended): the multipart body of `applyPreset` with preset id
`p` always contains `preset_id` stringified to `p` — duplicating the id
already present in the URL path `/presets/p/apply` — and the
`product_image` file; the `product_description` field is present exactly
when a supplied description is non-empty, and then carries it. -/
theorem applyPreset_request_spec (p : Nat) (f : FileRec) (d : Option String) :
    formLookup (applyPresetForm p f d) "preset_id" = some (.str (toString p)) ∧
    formLookup (applyPresetForm p f d) "product_image" = some (.file f) ∧
    applyPresetUrl p = "/presets/" ++ toString p ++ "/apply" ∧
    formLookup (applyPresetForm p f d) "product_description" =
      (match d with
       | some s => if s ≠ "" then some (FormValue.str s) else none
       | none => none) := by
  refine ⟨?_, ?_, rfl, ?_⟩ <;>
    cases d with
    | none => simp [applyPresetForm, formLookup, List.find?]
    | some s =>
      by_cases hs : s = "" <;>
        simp [applyPresetForm, formLookup, List.find?, hs]

/-- Claim C7: `mapGeneratedImage` copies `generated_image_url` into the
alias `url` and `user_intent` into the alias `prompt`, preserving every
other field unchanged, and the record pipelines of `getImage`,
`getImages`, `generateImage` and `applyPreset` all apply exactly this
mapping to the unwrapped record. -/
theorem generated_image_alias_spec (fields : List (String × JVal)) (k : String)
    (mv uv : JVal) (hk1 : k ≠ "url") (hk2 : k ≠ "prompt") :
    jsGet (mapGeneratedImage (.obj fields)) "url" =
      jsGet (.obj fields) "generated_image_url" ∧
    jsGet (mapGeneratedImage (.obj fields)) "prompt" =
      jsGet (.obj fields) "user_intent" ∧
    jsGet (mapGeneratedImage (.obj fields)) k = jsGet (.obj fields) k ∧
    getImageResult (.obj [("data", .obj fields)]) = mapGeneratedImage (.obj fields) ∧
    getImagesResult (.arr [.obj fields]) = [mapGeneratedImage (.obj fields)] ∧
    generateImageResult
        (.obj [("message", mv), ("data", .obj fields), ("image_url", uv)]) =
      mapGeneratedImage (.obj fields) ∧
    applyPresetResult
        (.obj [("message", mv), ("data", .obj fields), ("image_url", uv)]) =
      mapGeneratedImage (.obj fields) := by
  refine ⟨?_, ?_, ?_, ?_, rfl, ?_, ?_⟩
  · rw [show mapGeneratedImage (.obj fields) =
      .obj (setField (setField fields "url" (jsGet (.obj fields) "generated_image_url"))
        "prompt" (jsGet (.obj fields) "user_intent")) from rfl]
    rw [jsGet_obj_setField_ne _ _ _ _ (by decide)]
    exact jsGet_obj_setField_self ..
  · exact jsGet_obj_setField_self ..
  · rw [show mapGeneratedImage (.obj fields) =
      .obj (setField (setField fields "url" (jsGet (.obj fields) "generated_image_url"))
        "prompt" (jsGet (.obj fields) "user_intent")) from rfl]
    rw [jsGet_obj_setField_ne _ _ _ _ hk2, jsGet_obj_setField_ne _ _ _ _ hk1]
  · simp [getImageResult, extractApiData, hasKeyB, jsGet]
  · simp [generateImageResult, jsGet, jsOr, jsTruthy]
  · simp [applyPresetResult, jsGet, jsOr, jsTruthy]

/-- Witness for C7 at the claim's example: `getImage(42)` receiving the
enveloped record with `generated_image_url` "a.png" and `user_intent` "x"
yields both canonical fields and both aliases. -/
theorem generated_image_alias_spec_witness :
    jsGet (getImageResult (.obj [("data", .obj [("id", .num 42),
      ("generated_image_url", .str "a.png"), ("user_intent", .str "x")])])) "url" =
        .str "a.png" ∧
    jsGet (getImageResult (.obj [("data", .obj [("id", .num 42),
      ("generated_image_url", .str "a.png"), ("user_intent", .str "x")])])) "prompt" =
        .str "x" ∧
    jsGet (getImageResult (.obj [("data", .obj [("id", .num 42),
      ("generated_image_url", .str "a.png"), ("user_intent", .str "x")])]))
      "generated_image_url" = .str "a.png" ∧
    jsGet (getImageResult (.obj [("data", .obj [("id", .num 42),
      ("generated_image_url", .str "a.png"), ("user_intent", .str "x")])]))
      "user_intent" = .str "x" ∧
    jsGet (getImageResult (.obj [("data", .obj [("id", .num 42),
      ("generated_image_url", .str "a.png"), ("user_intent", .str "x")])])) "id" =
        .num 42 := by
  have h := generated_image_alias_spec
    [("id", .num 42), ("generated_image_url", .str "a.png"), ("user_intent", .str "x")]
    "id" .null .null (by decide) (by decide)
  rw [h.2.2.2.1]
  exact ⟨h.1.trans rfl, (h.2.1).trans rfl, rfl, rfl, (h.2.2.1).trans rfl⟩

/-- Claim C8: round-trip of the structured prompt.  If the backend echoes
a preset record whose `structured_prompt` is the mapping `m` (a record
carries no `data` field of its own), then both `createPreset` and a later
`getPreset`, receiving either the bare record or the
`\x7bmessage, data\x7d` envelope, return a preset whose derived `prompt`
equals the JSON serialization of `m`. -/
theorem preset_prompt_roundtrip (m rf : List (String × JVal)) (msgv : JVal)
    (h_sp : jsGet (.obj rf) "structured_prompt" = .obj m)
    (h_nodata : hasKeyB rf "data" = false) :
    jsGet (createPresetResult (.obj rf)) "prompt" = .str (jsonStringify (.obj m)) ∧
    jsGet (createPresetResult (.obj [("message", msgv), ("data", .obj rf)])) "prompt" =
      .str (jsonStringify (.obj m)) ∧
    jsGet (getPresetResult (.obj rf)) "prompt" = .str (jsonStringify (.obj m)) ∧
    jsGet (getPresetResult (.obj [("message", msgv), ("data", .obj rf)])) "prompt" =
      .str (jsonStringify (.obj m)) := by
  have henv : extractApiData (.obj [("message", msgv), ("data", .obj rf)]) = .obj rf := by
    simp [extractApiData, hasKeyB, jsGet]
  have hmap : jsGet (mapPreset (.obj rf)) "prompt" = .str (jsonStringify (.obj m)) := by
    rw [show mapPreset (.obj rf) =
      .obj (setField rf "prompt"
        (if jsTypeofObject (jsGet (.obj rf) "structured_prompt") then
          .str (jsonStringify (jsGet (.obj rf) "structured_prompt"))
        else jsGet (.obj rf) "structured_prompt")) from rfl]
    rw [h_sp]
    exact jsGet_obj_setField_self ..
  refine ⟨?_, ?_, ?_, ?_⟩ <;>
    simp only [createPresetResult, getPresetResult, henv,
      extractApiData_no_data rf h_nodata, hmap]

/-- Witness for C8 at the mapping `\x7bstyle: "bold"\x7d` echoed inside a
record with id 5, under both response shapes and both operations. -/
theorem preset_prompt_roundtrip_witness :
    jsGet (createPresetResult (.obj [("id", .num 5),
      ("structured_prompt", .obj [("style", .str "bold")])])) "prompt" =
      .str "\x7b\"style\":\"bold\"\x7d" ∧
    jsGet (createPresetResult (.obj [("message", .str "ok"), ("data", .obj [("id", .num 5),
      ("structured_prompt", .obj [("style", .str "bold")])])])) "prompt" =
      .str "\x7b\"style\":\"bold\"\x7d" ∧
    jsGet (getPresetResult (.obj [("id", .num 5),
      ("structured_prompt", .obj [("style", .str "bold")])])) "prompt" =
      .str "\x7b\"style\":\"bold\"\x7d" ∧
    jsGet (getPresetResult (.obj [("message", .str "ok"), ("data", .obj [("id", .num 5),
      ("structured_prompt", .obj [("style", .str "bold")])])])) "prompt" =
      .str "\x7b\"style\":\"bold\"\x7d" :=
  preset_prompt_roundtrip [("style", .str "bold")]
    [("id", .num 5), ("structured_prompt", .obj [("style", .str "bold")])]
    (.str "ok") rfl rfl

/-- Counterexample to claim C3 as stated: a 422 body that carries both a
non-empty `errors` mapping and a top-level `message` surfaces the
top-level message, not the first field's first message — the interceptor
rewrites the transport error's own `message` to "msg1", but
`handleApiError` prefers `response.data.message` over the error's
message. -/
theorem surfaced422_counterexample :
    surfacedMessage ⟨none, "/gallery", []⟩
      ⟨some (422, .obj [("message", .str "top"),
        ("errors", .obj [("name", .arr [.str "msg1", .str "msg2"])])]),
       true, .str "Request failed with status code 422"⟩ = .str "top" ∧
    JVal.str "top" ≠ JVal.str "msg1" :=
  ⟨rfl, by simp⟩

/-- Claim C3 (amended): for a 422 response whose body carries a non-empty
field-to-message-list mapping under `errors`, the surfaced message equals
the first message of the first field provided the body carries no
top-level `message` or `error` field (otherwise `handleApiError` surfaces
the top-level message instead); when the mapping is absent or empty and
the body carries a non-empty top-level message, the surfaced message falls
back to that top-level message. -/
theorem surfaced422_message_spec (st1 st2 : ClientState) (hr1 hr2 : Bool)
    (orig1 orig2 : JVal) (d1 d2 : List (String × JVal)) (f msg1 : String)
    (restMsgs : List JVal) (restFields : List (String × JVal)) (topMsg : String)
    (h_err : jsGet (.obj d1) "errors" =
      .obj ((f, .arr (.str msg1 :: restMsgs)) :: restFields))
    (h_m1 : msg1 ≠ "")
    (h_nomsg : jsGet (.obj d1) "message" = .undefined)
    (h_noerr : jsGet (.obj d1) "error" = .undefined)
    (h_abs : jsGet (.obj d2) "errors" = .undefined ∨ jsGet (.obj d2) "errors" = .obj [])
    (h_top : jsGet (.obj d2) "message" = .str topMsg)
    (h_tne : topMsg ≠ "") :
    surfacedMessage st1 ⟨some (422, .obj d1), hr1, orig1⟩ = .str msg1 ∧
    surfacedMessage st2 ⟨some (422, .obj d2), hr2, orig2⟩ = .str topMsg := by
  constructor
  · simp [surfacedMessage, respInterceptorError, handleApiError, h_err, h_nomsg,
      h_noerr, jsTruthy, jsValues, jsIndex0, jsOr, h_m1]
  · rcases h_abs with h_abs | h_abs <;>
      simp [surfacedMessage, respInterceptorError, handleApiError, h_abs, h_top,
        jsTruthy, jsValues, jsIndex0, jsOr, h_tne]

/-- Witness for C3 at a body with only the `errors` mapping (surfacing
"m1") and a body with only a top-level message (surfacing "fallback"). -/
theorem surfaced422_message_spec_witness :
    surfacedMessage ⟨none, "/gallery", []⟩
      ⟨some (422, .obj [("errors", .obj [("name", .arr [.str "m1", .str "m2"])])]),
       true, .str "orig"⟩ = .str "m1" ∧
    surfacedMessage ⟨none, "/gallery", []⟩
      ⟨some (422, .obj [("message", .str "fallback")]), true, .str "orig"⟩ =
      .str "fallback" :=
  surfaced422_message_spec ⟨none, "/gallery", []⟩ ⟨none, "/gallery", []⟩ true true
    (.str "orig") (.str "orig")
    [("errors", .obj [("name", .arr [.str "m1", .str "m2"])])]
    [("message", .str "fallback")] "name" "m1" [.str "m2"] [] "fallback"
    rfl (by decide) rfl rfl (Or.inl rfl) rfl (by decide)

/-! Helper lemmas about the retry loop. -/

theorem retryAux_allFail_noMarker {α : Type} (fn : Nat → Except String α)
    (m : Nat → String) (delay : Nat)
    (hfn : ∀ k, fn k = Except.error (m k))
    (h4 : ∀ k, strIncludes (m k) "4" = false) :
    ∀ (R attempt calls : Nat) (le : Option String) (waits : List Nat),
      retryAux fn delay (R + 1) attempt le calls waits =
        ⟨Except.error (m (attempt + R)), calls + R + 1,
         waits ++ backoffWaits delay attempt R⟩ := by
  intro R
  induction R with
  | zero =>
    intro attempt calls le waits
    simp [retryAux, hfn attempt, h4 attempt, backoffWaits]
  | succ R ih =>
    intro attempt calls le waits
    have hstep : retryAux fn delay (R + 1 + 1) attempt le calls waits =
        retryAux fn delay (R + 1) (attempt + 1) (some (m attempt)) (calls + 1)
          (waits ++ [delay * 2 ^ attempt]) := by
      simp [retryAux, hfn attempt, h4 attempt]
    rw [hstep, ih (attempt + 1) (calls + 1) (some (m attempt)) (waits ++ [delay * 2 ^ attempt])]
    have h1 : attempt + 1 + R = attempt + (R + 1) := by omega
    have h2 : calls + 1 + R + 1 = calls + (R + 1) + 1 := by omega
    rw [h1, h2]
    simp [backoffWaits, List.append_assoc]

theorem backoffWaits_eq_range (delay : Nat) :
    ∀ (R a : Nat),
      backoffWaits delay a R = (List.range R).map (fun k => delay * 2 ^ (a + k)) := by
  intro R
  induction R with
  | zero =>
    intro a
    simp [backoffWaits]
  | succ R ih =>
    intro a
    rw [List.range_succ_eq_map]
    simp only [backoffWaits, List.map_cons, List.map_map, ih (a + 1)]
    congr 1
    have hfun : ((fun k => delay * 2 ^ (a + k)) ∘ Nat.succ) =
        (fun k => delay * 2 ^ (a + 1 + k)) := by
      funext k
      simp only [Function.comp_apply]
      congr 2
      omega
    rw [hfun]

/-- Counterexample to claim C4 as stated: a function that always throws
"HTTP error 504" — a server-side 5xx failure, whose message mentions no
4xx status code — is nonetheless invoked exactly once with maxRetries 3,
because the source detects "client errors" by checking whether the message
contains the character 4 anywhere, which also matches 504.  The claim
predicts maxRetries (3) invocations for a non-4xx error. -/
theorem retryApiCall_counterexample :
    specIndicates4xx "HTTP error 504" = false ∧
    (retryApiCall (fun _ => (Except.error "HTTP error 504" : Except String Unit))
      3 1000).calls = 1 ∧
    (1 : Nat) ≠ 3 :=
  ⟨rfl, rfl, by decide⟩

/-- Claim C4 (amended): `retryApiCall(fn, maxRetries, delay)` invokes `fn`
exactly once and rethrows the error, with no waits, whenever the thrown
messages contain the character 4 (the code's actual client-error marker,
which covers every 4xx marker but also e.g. 504); when no thrown message
contains the character 4 and every invocation fails, `fn` is invoked
exactly maxRetries times, the wait before retry number k equals
`delay * 2 ^ (k - 1)` (doubling each retry), and the last observed error
is rethrown. -/
theorem retryApiCall_marker_spec {α : Type} (m1 m2 : Nat → String)
    (fn1 fn2 : Nat → Except String α) (R delay : Nat)
    (hfn1 : ∀ k, fn1 k = Except.error (m1 k))
    (h1 : ∀ k, strIncludes (m1 k) "4" = true)
    (hfn2 : ∀ k, fn2 k = Except.error (m2 k))
    (h2 : ∀ k, strIncludes (m2 k) "4" = false) :
    (retryApiCall fn1 (R + 1) delay).calls = 1 ∧
    (retryApiCall fn1 (R + 1) delay).result = .error (m1 0) ∧
    (retryApiCall fn1 (R + 1) delay).waits = [] ∧
    (retryApiCall fn2 (R + 1) delay).calls = R + 1 ∧
    (retryApiCall fn2 (R + 1) delay).result = .error (m2 R) ∧
    (retryApiCall fn2 (R + 1) delay).waits =
      (List.range R).map (fun k => delay * 2 ^ k) := by
  have hone : retryApiCall fn1 (R + 1) delay = ⟨.error (m1 0), 1, []⟩ := by
    simp [retryApiCall, retryAux, hfn1 0, h1 0]
  have htwo : retryApiCall fn2 (R + 1) delay =
      ⟨Except.error (m2 (0 + R)), 0 + R + 1, [] ++ backoffWaits delay 0 R⟩ := by
    rw [retryApiCall]
    exact retryAux_allFail_noMarker fn2 m2 delay hfn2 h2 R 0 0 none []
  refine ⟨by rw [hone], by rw [hone], by rw [hone], ?_, ?_, ?_⟩ <;>
    rw [htwo] <;> simp [backoffWaits_eq_range]

/-- Witness for C4: a constant 404-message failure is invoked once with no
waits; a constant non-4 failure with maxRetries 3 and delay 1000 is
invoked three times with doubling waits 1000, 2000 and rethrows the last
error. -/
theorem retryApiCall_marker_spec_witness :
    (retryApiCall (fun _ =>
      (Except.error "Request failed with status code 404" : Except String Unit))
      3 1000).calls = 1 ∧
    (retryApiCall (fun _ =>
      (Except.error "Request failed with status code 404" : Except String Unit))
      3 1000).result = .error "Request failed with status code 404" ∧
    (retryApiCall (fun _ =>
      (Except.error "Request failed with status code 404" : Except String Unit))
      3 1000).waits = [] ∧
    (retryApiCall (fun _ => (Except.error "boom" : Except String Unit)) 3 1000).calls = 3 ∧
    (retryApiCall (fun _ => (Except.error "boom" : Except String Unit)) 3 1000).result =
      .error "boom" ∧
    (retryApiCall (fun _ => (Except.error "boom" : Except String Unit)) 3 1000).waits =
      [1000, 2000] :=
  retryApiCall_marker_spec (fun _ => "Request failed with status code 404")
    (fun _ => "boom") (fun _ => Except.error "Request failed with status code 404")
    (fun _ => Except.error "boom") 2 1000
    (fun _ => rfl) (fun _ => rfl) (fun _ => rfl) (fun _ => rfl)

end BrandFrame
